import Mathlib

/-!
Verification of the IndiGo booking scraper's extraction pipeline.

This file gives a shallow embedding of the core extraction loop of
`streamlit_app.py` (the UI-embedded variant, which the specification
follows as the intended contract): CSV loading, the load detector,
flight/passenger field extraction, per-request record assembly, the run
loop's accumulator, and the CSV exporter.  Browser interaction is
abstracted as data: a page is modelled by the results of the DOM queries
the code performs (each query returns an optional element, mirroring
`find_element`, which either returns an element or raises).
-/

namespace IndigoScraper

/-- An element as seen by the scraper: its text and whether it is displayed. -/
structure DisplayedElem where
  text : String
  displayed : Bool
deriving DecidableEq, Repr

/-- One `.passenger-details` section, as the per-section DOM queries of
`extract_passenger_details` see it: each field is the result of the
corresponding `find_element` call (`none` when the call raises). -/
structure PassengerSection where
  /-- Text of `.passenger-details__top-section__full-name span`. -/
  fullName : Option String
  /-- Texts of all `.passenger-details__top-section__p-info__age-group` elements. -/
  ageGroupTexts : List String
  /-- Text of `.passenger-details__bottom-section__seat-info`. -/
  seatInfo : Option String
  /-- Text of the primary status element `.sector-chip-no-show`. -/
  sectorChipNoShow : Option String
  /-- Results of the five alternative status selectors, in order. -/
  altStatuses : List (Option String)
deriving DecidableEq, Repr

/-- The document state after submitting one lookup, abstracted as the results
of the queries `check_booking_loaded`, `extract_flight_details` and
`extract_passenger_details` perform against the driver. -/
structure PageData where
  /-- `find_element(By.XPATH, "//*[contains(text(), pat)]")` for a pattern. -/
  findTextContains : String → Option DisplayedElem
  /-- `presence_of_element_located((By.CSS_SELECTOR, sel))` for a selector. -/
  findCss : String → Option DisplayedElem
  /-- `driver.current_url`. -/
  url : String
  /-- Texts of the `span` elements inside `.flight-journey-tab-container__leg`,
  or `none` when the route container itself is absent. -/
  routeSpans : Option (List String)
  /-- Text of `.booking-info-container-other-info__date span`. -/
  dateText : Option String
  /-- Text of `.flight-code`. -/
  flightCode : Option String
  /-- Text of `.departure-time`. -/
  depTime : Option String
  /-- Text of `.arrival-time`. -/
  arrTime : Option String
  /-- Text of `.flight-stops`. -/
  stops : Option String
  /-- Text of `.cabin .cabin-value`. -/
  cabinVal : Option String
  /-- Text of `.checkin .checkin-value`. -/
  checkinVal : Option String
  /-- The `.passenger-details` sections, in document order. -/
  passengerSections : List PassengerSection

/-- The whitespace characters Python's `str.strip()` removes (ASCII part). -/
def isSpaceChar (c : Char) : Bool :=
  c = ' ' || c = '\t' || c = '\n' || c = '\r' || c = '\x0b' || c = '\x0c'

/-- Python `str.strip()`: drop leading and trailing whitespace. -/
def pyStrip (s : String) : String :=
  String.mk (((s.toList.dropWhile isSpaceChar).reverse.dropWhile isSpaceChar).reverse)

/-- Lowercase one character (ASCII, which covers every string the scraper
lowercases). -/
def lowerChar (c : Char) : Char :=
  if 'A' ≤ c && c ≤ 'Z' then Char.ofNat (c.toNat + 32) else c

/-- Python `str.lower()` on the ASCII range. -/
def pyLower (s : String) : String :=
  String.mk (s.toList.map lowerChar)

/-- Python `s[:n]`: the first `n` characters. -/
def pyTake (s : String) (n : Nat) : String :=
  String.mk (s.toList.take n)

/-- `leadsChars n h` holds when the character list `n` starts the list `h`
(Python `h.startswith(n)` on the character level). -/
def leadsChars : List Char → List Char → Bool
  | [], _ => true
  | _ :: _, [] => false
  | a :: as, b :: bs => a = b && leadsChars as bs

/-- `containsSub n h = true` iff `n` occurs contiguously inside `h`
(the character-level reading of Python's `n in h`). -/
def containsSub (needle : List Char) : List Char → Bool
  | [] => needle.isEmpty
  | c :: rest => leadsChars needle (c :: rest) || containsSub needle rest

/-- Python's `needle in hay` on strings. -/
def strContains (hay needle : String) : Bool :=
  containsSub needle.toList hay.toList

/-- The error-text patterns probed first by `check_booking_loaded`. -/
def error_selectors : List String :=
  ["Invalid", "not found", "incorrect", "error"]

/-- The success-indicator CSS selectors probed by `check_booking_loaded`. -/
def success_indicators : List String :=
  [".view-itinerary", ".itinerary-details-title", ".booking-info",
   ".flight-details", ".passenger-details"]

/-- The first loop of `check_booking_loaded`: some error-text pattern matches
a displayed element. -/
def errorVisible (p : PageData) : Bool :=
  error_selectors.any fun pat =>
    match p.findTextContains pat with
    | some e => e.displayed
    | none => false

/-- The second loop of `check_booking_loaded`: some success indicator is
present and displayed. -/
def successVisible (p : PageData) : Bool :=
  success_indicators.any fun sel =>
    match p.findCss sel with
    | some e => e.displayed
    | none => false

/-- `check_booking_loaded` (streamlit variant): error patterns first, then
success indicators, then the lowercased-URL check. -/
def check_booking_loaded (p : PageData) : Bool :=
  if errorVisible p then false
  else if successVisible p then true
  else if strContains (pyLower p.url) "itinerary"
      || strContains (pyLower p.url) "booking-details" then true
  else false

/-- Word character in the sense of the regex `\b` boundary (`[A-Za-z0-9_]`). -/
def isWordChar (c : Char) : Bool := c.isAlphanum || c = '_'

/-- `\b` at the start of a candidate match: the preceding character (if any)
is not a word character. -/
def boundaryBefore : Option Char → Bool
  | none => true
  | some c => !isWordChar c

/-- `\b` after a match: the following character (if any) is not a word
character. -/
def boundaryAfter : List Char → Bool
  | [] => true
  | c :: _ => !isWordChar c

/-- One attempt of the regex `\b\d{1,2}[A-Z]\b` at a fixed position (the `\b`
before the match is checked by the caller): greedily try two digits, then
backtrack to one. -/
def seatMatchHere : List Char → Option (List Char)
  | d1 :: d2 :: l :: rest =>
      if d1.isDigit && d2.isDigit && l.isUpper && boundaryAfter rest then
        some [d1, d2, l]
      else if d1.isDigit && d2.isUpper && !isWordChar l then
        some [d1, d2]
      else none
  | [d1, d2] => if d1.isDigit && d2.isUpper then some [d1, d2] else none
  | _ => none

/-- `re.search(r'\b\d{1,2}[A-Z]\b', _)`: scan positions left to right,
attempting a match wherever the word boundary holds. -/
def seatSearchAux : Option Char → List Char → Option (List Char)
  | _, [] => none
  | prev, c :: cs =>
      if boundaryBefore prev then
        match seatMatchHere (c :: cs) with
        | some m => some m
        | none => seatSearchAux (some c) cs
      else seatSearchAux (some c) cs

/-- Seat-number extraction from the stripped seat-info text: the regex match
if any, `"Not assigned"` otherwise. -/
def seatNumberFrom (seatText : String) : String :=
  match seatSearchAux none seatText.toList with
  | some m => String.mk m
  | none => "Not assigned"

/-- A one-digit seat token (`\b\d[A-Z]\b`) at the head of the list, boundary
before already assumed. -/
def seatTokenAt1 : List Char → Bool
  | d1 :: l :: rest => d1.isDigit && l.isUpper && boundaryAfter rest
  | _ => false

/-- A two-digit seat token (`\b\d\d[A-Z]\b`) at the head of the list. -/
def seatTokenAt2 : List Char → Bool
  | d1 :: d2 :: l :: rest =>
      d1.isDigit && d2.isDigit && l.isUpper && boundaryAfter rest
  | _ => false

/-- The text contains, at some position preceded by a word boundary, a 1–2
digit row number immediately followed by an uppercase letter, delimited on
the right.  This is the specification-level reading of "contains an
occurrence of a 1–2 digit row number immediately followed by a letter, as a
delimited word". -/
def hasSeatTokenAux : Option Char → List Char → Bool
  | _, [] => false
  | prev, c :: cs =>
      (boundaryBefore prev && (seatTokenAt1 (c :: cs) || seatTokenAt2 (c :: cs)))
        || hasSeatTokenAux (some c) cs

/-- Whole-string version of `hasSeatTokenAux`. -/
def hasSeatToken (s : String) : Bool := hasSeatTokenAux none s.toList

/-- The flight-level dictionary built by `extract_flight_details`. -/
structure FlightDetails where
  bmsCode : String
  pnr : String
  lastName : String
  source : String
  destination : String
  departureDate : String
  flightNumber : String
  departureTime : String
  arrivalTime : String
  stopType : String
  cabinBaggage : String
  checkinBaggage : String
deriving DecidableEq, Repr

/-- `extract_flight_details` (streamlit variant): every field defaults to
`"Not found"` and is overwritten only when its query succeeds; the route
needs at least two spans, taking the first two. -/
def extract_flight_details (p : PageData) (input_pnr input_lastname bms_code : String) :
    FlightDetails :=
  { bmsCode := bms_code
    pnr := input_pnr
    lastName := input_lastname
    source :=
      match p.routeSpans with
      | some (s1 :: _ :: _) => pyStrip s1
      | _ => "Not found"
    destination :=
      match p.routeSpans with
      | some (_ :: s2 :: _) => pyStrip s2
      | _ => "Not found"
    departureDate := (p.dateText.map pyStrip).getD "Not found"
    flightNumber := (p.flightCode.map pyStrip).getD "Not found"
    departureTime := (p.depTime.map pyStrip).getD "Not found"
    arrivalTime := (p.arrTime.map pyStrip).getD "Not found"
    stopType := (p.stops.map pyStrip).getD "Not found"
    cabinBaggage :=
      match p.cabinVal with
      | some v => pyStrip v ++ " Cabin"
      | none => "Not found"
    checkinBaggage :=
      match p.checkinVal with
      | some v => pyStrip v ++ " Check-in"
      | none => "Not found" }

/-- The per-passenger dictionary built by `extract_passenger_details`. -/
structure Passenger where
  name : String
  gender : String
  ageCategory : String
  seatNumber : String
  flightStatus : String
deriving DecidableEq, Repr

/-- The alternative-status loop: the first alternative selector that finds an
element with non-empty stripped text wins. -/
def firstAltStatus : List (Option String) → Option String
  | [] => none
  | none :: rest => firstAltStatus rest
  | some t :: rest => if pyStrip t ≠ "" then some (pyStrip t) else firstAltStatus rest

/-- The body of the per-section loop of `extract_passenger_details`
(streamlit variant): name is mandatory (and must be non-empty), gender/age
default to `"Unknown"`/`"Adult"` without two age-group elements, the seat
comes from the regex with default `"Not assigned"`, and status falls back
through the alternative selectors to `"Confirmed"`. -/
def extractPassengerFrom (s : PassengerSection) : Option Passenger :=
  match s.fullName with
  | none => none
  | some nm =>
    if pyStrip nm ≠ "" then
      some
        { name := pyStrip nm
          gender :=
            match s.ageGroupTexts with
            | g :: _ :: _ => pyStrip g
            | _ => "Unknown"
          ageCategory :=
            match s.ageGroupTexts with
            | _ :: a :: _ => pyStrip a
            | _ => "Adult"
          seatNumber :=
            match s.seatInfo with
            | some t => seatNumberFrom (pyStrip t)
            | none => "Not assigned"
          flightStatus :=
            match s.sectorChipNoShow with
            | some t => pyStrip t
            | none => (firstAltStatus s.altStatuses).getD "Confirmed" }
    else none

/-- `extract_passenger_details`: process every `.passenger-details` section,
skipping the ones without a (non-empty) name. -/
def extract_passenger_details (sections : List PassengerSection) : List Passenger :=
  sections.filterMap extractPassengerFrom

/-- One row of the accumulator `scraped_data`, flattened: in the streamlit
variant every append populates all eighteen keys. -/
structure OutputRecord where
  bmsCode : String
  pnr : String
  lastName : String
  name : String
  flightStatus : String
  seatNumber : String
  source : String
  destination : String
  departureDate : String
  flightNumber : String
  departureTime : String
  arrivalTime : String
  stopType : String
  cabinBaggage : String
  checkinBaggage : String
  passengerCount : Nat
  gender : String
  ageCategory : String
deriving DecidableEq, Repr

/-- `{**flight_details, **passenger}` plus `Passenger_Count`: the key sets
are disjoint, so the merge keeps every flight field and every passenger
field. -/
def combineRecord (fd : FlightDetails) (pa : Passenger) (count : Nat) : OutputRecord :=
  { bmsCode := fd.bmsCode
    pnr := fd.pnr
    lastName := fd.lastName
    name := pa.name
    flightStatus := pa.flightStatus
    seatNumber := pa.seatNumber
    source := fd.source
    destination := fd.destination
    departureDate := fd.departureDate
    flightNumber := fd.flightNumber
    departureTime := fd.departureTime
    arrivalTime := fd.arrivalTime
    stopType := fd.stopType
    cabinBaggage := fd.cabinBaggage
    checkinBaggage := fd.checkinBaggage
    passengerCount := count
    gender := pa.gender
    ageCategory := pa.ageCategory }

/-- The zero-passenger path: the flight details are kept and the passenger
fields are filled with placeholders. -/
def noPassengerRecord (fd : FlightDetails) : OutputRecord :=
  { bmsCode := fd.bmsCode
    pnr := fd.pnr
    lastName := fd.lastName
    name := "No passenger details found"
    flightStatus := "Check manually"
    seatNumber := "Not found"
    source := fd.source
    destination := fd.destination
    departureDate := fd.departureDate
    flightNumber := fd.flightNumber
    departureTime := fd.departureTime
    arrivalTime := fd.arrivalTime
    stopType := fd.stopType
    cabinBaggage := fd.cabinBaggage
    checkinBaggage := fd.checkinBaggage
    passengerCount := 0
    gender := "Unknown"
    ageCategory := "Unknown" }

/-- The load-failure record (`basic_data` in the source). -/
def failedRecord (pnr lastname bms : String) : OutputRecord :=
  { bmsCode := bms
    pnr := pnr
    lastName := lastname
    name := "Failed to load"
    flightStatus := "Failed"
    seatNumber := "Not found"
    source := "Failed to load"
    destination := "Failed to load"
    departureDate := "Failed to load"
    flightNumber := "Failed to load"
    departureTime := "Failed to load"
    arrivalTime := "Failed to load"
    stopType := "Failed to load"
    cabinBaggage := "Failed to load"
    checkinBaggage := "Failed to load"
    passengerCount := 0
    gender := "Unknown"
    ageCategory := "Unknown" }

/-- The unexpected-error record (`error_data` in the source); the source
field carries the truncated message. -/
def errorRecord (pnr lastname bms msg : String) : OutputRecord :=
  { bmsCode := bms
    pnr := pnr
    lastName := lastname
    name := "Error"
    flightStatus := "Error"
    seatNumber := "Error"
    source := "Error: " ++ pyTake msg 50
    destination := "Error"
    departureDate := "Error"
    flightNumber := "Error"
    departureTime := "Error"
    arrivalTime := "Error"
    stopType := "Error"
    cabinBaggage := "Error"
    checkinBaggage := "Error"
    passengerCount := 0
    gender := "Unknown"
    ageCategory := "Unknown" }

/-- The environment one lookup request meets: either the navigate/fill/click
sequence raises (any unexpected exception inside the `try`), or submission
yields a page. -/
inductive RequestEnv where
  | raises (msg : String)
  | page (p : PageData)

/-- `scrape_booking_details` (streamlit variant), with the state-passing
made explicit: the returned list is what the call appends to
`scraped_data`, the Bool is the return value. -/
def scrape_booking_details (env : RequestEnv) (pnr lastname bms_code : String) :
    Bool × List OutputRecord :=
  match env with
  | .raises msg => (false, [errorRecord pnr lastname bms_code msg])
  | .page p =>
    if check_booking_loaded p then
      if extract_passenger_details p.passengerSections ≠ [] then
        (true,
         (extract_passenger_details p.passengerSections).map fun pa =>
           combineRecord (extract_flight_details p pnr lastname bms_code) pa
             (extract_passenger_details p.passengerSections).length)
      else
        (false, [noPassengerRecord (extract_flight_details p pnr lastname bms_code)])
    else
      (false, [failedRecord pnr lastname bms_code])

/-- One parsed booking triple `(pnr, lastname, bms_code)`. -/
abbrev Booking := String × String × String

/-- An input table as pandas hands it to `load_csv_data`: a header and rows
of cells, where `none` is a missing value (NaN). -/
structure InputTable where
  header : List String
  rows : List (List (Option String))

/-- `str(cell)`: a missing value prints as `"nan"`. -/
def cellStr : Option String → String
  | none => "nan"
  | some s => s

/-- The row loop of `load_csv_data`: keep a row when the stripped first and
second cells are truthy and not the string `nan` (case-insensitively). -/
def collectBookings : List (List (Option String)) → List Booking
  | [] => []
  | row :: rest =>
    let pnr := pyStrip (cellStr (row.getD 0 none))
    let lastname := pyStrip (cellStr (row.getD 1 none))
    let bms_code :=
      match row.getD 2 none with
      | some s => pyStrip s
      | none => ""
    if pnr ≠ "" && lastname ≠ "" && pyLower pnr ≠ "nan" && pyLower lastname ≠ "nan" then
      (pnr, lastname, bms_code) :: collectBookings rest
    else collectBookings rest

/-- `load_csv_data`: fewer than three columns raises `ValueError`; otherwise
the kept rows become bookings in row order. -/
def load_csv_data (t : InputTable) : Except String (List Booking) :=
  if t.header.length < 3 then
    .error "CSV must have at least 3 columns (PNR, Last Name, and BMS Code)"
  else
    .ok (collectBookings t.rows)

/-- Specification-side row-keeping predicate: reference and surname are both
non-empty and not a missing-value marker after trimming (the third column is
never consulted). -/
def specRowKept (row : List (Option String)) : Bool :=
  pyStrip (cellStr (row.getD 0 none)) ≠ "" &&
  pyStrip (cellStr (row.getD 1 none)) ≠ "" &&
  pyLower (pyStrip (cellStr (row.getD 0 none))) ≠ "nan" &&
  pyLower (pyStrip (cellStr (row.getD 1 none))) ≠ "nan"

/-- The booking a kept row yields. -/
def rowBooking (row : List (Option String)) : Booking :=
  (pyStrip (cellStr (row.getD 0 none)),
   pyStrip (cellStr (row.getD 1 none)),
   match row.getD 2 none with
   | some s => pyStrip s
   | none => "")

/-- The run loop of `run_scraper`: process the bookings in order, the
`i`-th one against environment `envf i`, concatenating everything appended
to `scraped_data`. -/
def processBookings (envf : Nat → RequestEnv) : Nat → List Booking → List OutputRecord
  | _, [] => []
  | i, b :: rest =>
      (scrape_booking_details (envf i) b.1 b.2.1 b.2.2).2 ++ processBookings envf (i + 1) rest

/-- A record as a pandas row: the dictionary's key/value pairs (the count is
rendered like the CSV writer renders an int). -/
def OutputRecord.toRow (r : OutputRecord) : List (String × String) :=
  [("BMS_Code", r.bmsCode), ("PNR", r.pnr), ("Last_Name", r.lastName),
   ("Name", r.name), ("Flight_Status", r.flightStatus), ("Seat_Number", r.seatNumber),
   ("Source", r.source), ("Destination", r.destination),
   ("Departure_Date", r.departureDate), ("Flight_Number", r.flightNumber),
   ("Departure_Time", r.departureTime), ("Arrival_Time", r.arrivalTime),
   ("Stop_Type", r.stopType), ("Cabin_Baggage", r.cabinBaggage),
   ("Checkin_Baggage", r.checkinBaggage), ("Passenger_Count", toString r.passengerCount),
   ("Gender", r.gender), ("Age_Category", r.ageCategory)]

/-- The fixed column order of `export_to_csv` (streamlit variant). -/
def exportColumns : List String :=
  ["BMS_Code", "PNR", "Last_Name", "Name", "Flight_Status", "Seat_Number",
   "Source", "Destination", "Departure_Date", "Flight_Number",
   "Departure_Time", "Arrival_Time", "Stop_Type", "Cabin_Baggage",
   "Checkin_Baggage", "Passenger_Count", "Gender", "Age_Category"]

/-- Whether a row (a dictionary) carries a key. -/
def rowHasKey (r : List (String × String)) (k : String) : Bool :=
  r.any fun kv => kv.1 = k

/-- Whether any accumulated row carries the key: such keys are the columns
of `pd.DataFrame(scraped_data)`. -/
def anyHasKey (rs : List (List (String × String))) (k : String) : Bool :=
  rs.any fun r => rowHasKey r k

/-- The cell of one exported row under a column: a column missing from every
record was filled with `"Not found"` by the `df[col] = 'Not found'` loop;
otherwise the row's own value (`none` is pandas NaN for a key present in
some other record only). -/
def cellValue (rs : List (List (String × String))) (r : List (String × String))
    (k : String) : Option String :=
  if anyHasKey rs k then (r.find? fun kv => kv.1 = k).map fun kv => kv.2
  else some "Not found"

/-- The written CSV: header plus one cell row per record. -/
structure ExportTable where
  header : List String
  rows : List (List (Option String))
deriving DecidableEq, Repr

/-- `export_to_csv` (streamlit variant): nothing is written for an empty
accumulator; otherwise every expected column missing from the frame is
filled with `"Not found"` and the frame is reordered to `exportColumns`. -/
def export_to_csv (rs : List (List (String × String))) : Option ExportTable :=
  if rs.isEmpty then none
  else
    some
      { header := exportColumns
        rows := rs.map fun r => exportColumns.map (cellValue rs r) }

/-- `run_scraper` (streamlit variant), state-passing: returns the final
accumulator and the export, if one was written.  A `load_csv_data` failure
is caught by the outer handler, which exports only if something had
accumulated — nothing has at that point. -/
def run_scraper (t : InputTable) (envf : Nat → RequestEnv) :
    List OutputRecord × Option ExportTable :=
  match load_csv_data t with
  | .error _ => ([], none)
  | .ok bookings =>
    if bookings.isEmpty then ([], none)
    else
      let recs := processBookings envf 0 bookings
      (recs, export_to_csv (recs.map OutputRecord.toRow))

/-! Concrete fixtures used to exercise the theorems below on closed inputs. -/

/-- A page on which every DOM query fails. -/
def emptyPage : PageData :=
  { findTextContains := fun _ => none
    findCss := fun _ => none
    url := ""
    routeSpans := none
    dateText := none
    flightCode := none
    depTime := none
    arrTime := none
    stops := none
    cabinVal := none
    checkinVal := none
    passengerSections := [] }

/-- A page showing the error text `Invalid PNR` while a success indicator is
also present and displayed and the URL contains an itinerary segment. -/
def errorPage : PageData :=
  { emptyPage with
      findTextContains := fun pat =>
        if pat = "Invalid" then some { text := "Invalid PNR", displayed := true } else none
      findCss := fun sel =>
        if sel = ".booking-info" then some { text := "Itinerary", displayed := true } else none
      url := "https://www.goindigo.in/ITINERARY" }

/-- A passenger section with a name, gender/age pair, a seat text, and no
status element. -/
def paxSection : PassengerSection :=
  { fullName := some "JOHN DOE"
    ageGroupTexts := ["Male", "Adult"]
    seatInfo := some "Seat 16A, Window"
    sectorChipNoShow := none
    altStatuses := [none, none, none, none, none] }

/-- A successfully loaded page with one passenger section. -/
def loadedPage : PageData :=
  { emptyPage with
      findCss := fun sel =>
        if sel = ".passenger-details" then some { text := "", displayed := true } else none
      routeSpans := some ["DEL", "BOM"]
      passengerSections := [paxSection] }

/-- A successfully loaded page with no passenger sections at all. -/
def bareLoadedPage : PageData :=
  { emptyPage with
      findCss := fun sel =>
        if sel = ".booking-info" then some { text := "", displayed := true } else none }

/-- A page whose route container holds a single span. -/
def shortRoutePage : PageData :=
  { emptyPage with routeSpans := some ["DEL"] }

/-- A three-column input table: one valid row, one with a missing reference,
one with a blank surname. -/
def sampleTable : InputTable :=
  { header := ["PNR", "Last Name", "BMS"]
    rows := [[some "AB123", some "DOE", none],
             [none, some "SMITH", some "B2"],
             [some "CD456", some "   ", some "B3"]] }

/-- A table with only two columns. -/
def narrowTable : InputTable :=
  { header := ["PNR", "Last Name"]
    rows := [[some "AB123", some "DOE"]] }

/-- One accumulated row that carries only a `PNR` key. -/
def sampleRows : List (List (String × String)) := [[("PNR", "AB123")]]

/-! Lemmas about the seat-number regex. -/

/-- A match attempt succeeds exactly when a one- or two-digit seat token
starts at this position. -/
theorem seatMatchHere_isSome (cs : List Char) :
    (seatMatchHere cs).isSome = (seatTokenAt1 cs || seatTokenAt2 cs) := by
  match cs with
  | [] => rfl
  | [d1] => rfl
  | [d1, d2] =>
      simp only [seatMatchHere, seatTokenAt1, seatTokenAt2, boundaryAfter]
      split <;> simp_all
  | d1 :: d2 :: l :: rest =>
      simp only [seatMatchHere, seatTokenAt1, seatTokenAt2, boundaryAfter]
      split
      · simp_all
      · split <;> simp_all

/-- The regex search succeeds exactly when the text has a seat token at some
boundary position. -/
theorem seatSearchAux_isSome (cs : List Char) : ∀ prev : Option Char,
    (seatSearchAux prev cs).isSome = hasSeatTokenAux prev cs := by
  induction cs with
  | nil => intro prev; rfl
  | cons c cs ih =>
      intro prev
      simp only [seatSearchAux, hasSeatTokenAux]
      by_cases hb : boundaryBefore prev = true
      · rw [if_pos hb, hb, Bool.true_and]
        cases hm : seatMatchHere (c :: cs) with
        | some m =>
            have h := seatMatchHere_isSome (c :: cs)
            rw [hm] at h
            simp only [Option.isSome_some] at h
            simp [← h]
        | none =>
            have h := seatMatchHere_isSome (c :: cs)
            rw [hm] at h
            simp only [Option.isSome_none] at h
            simp [← h, ih (some c)]
      · have hb' : boundaryBefore prev = false := by
          simpa using hb
        rw [if_neg hb, hb', Bool.false_and, Bool.false_or]
        exact ih (some c)

/-- C6: seat extraction applied to the free text `Seat 16A, Window` yields
`16A`; applied to any text containing no delimited occurrence of a 1–2 digit
row number immediately followed by a letter, it yields `Not assigned`. -/
theorem claim6_seat_extraction :
    seatNumberFrom "Seat 16A, Window" = "16A" ∧
    ∀ s : String, hasSeatToken s = false → seatNumberFrom s = "Not assigned" := by
  constructor
  · decide
  · intro s hs
    unfold hasSeatToken at hs
    have h := seatSearchAux_isSome s.toList none
    rw [hs] at h
    unfold seatNumberFrom
    cases hm : seatSearchAux none s.toList with
    | some m =>
        rw [hm] at h
        simp at h
    | none => rfl

/-- C6 witness: `Window seat` has no seat token and extraction yields the
default on it. -/
theorem claim6_witness :
    hasSeatToken "Window seat" = false ∧
    seatNumberFrom "Window seat" = "Not assigned" :=
  ⟨by decide, claim6_seat_extraction.2 "Window seat" (by decide)⟩

/-- Every call of `scrape_booking_details` appends at least one record. -/
theorem one_le_scrape_len (env : RequestEnv) (pnr lastname bms : String) :
    1 ≤ (scrape_booking_details env pnr lastname bms).2.length := by
  cases env with
  | raises msg => simp [scrape_booking_details]
  | page p =>
      simp only [scrape_booking_details]
      split
      · split
        · rename_i hne
          simp only [List.length_map]
          exact List.length_pos.mpr hne
        · simp
      · simp

/-- C1: every lookup request processed by the run loop appends at least one
record to the accumulator, whatever the outcome, so the number of
accumulated records is at least the number of requests processed. -/
theorem claim1_record_count_ge_request_count :
    (∀ (env : RequestEnv) (pnr lastname bms : String),
        1 ≤ (scrape_booking_details env pnr lastname bms).2.length) ∧
    ∀ (envf : Nat → RequestEnv) (i : Nat) (bs : List Booking),
      bs.length ≤ (processBookings envf i bs).length := by
  refine ⟨one_le_scrape_len, ?_⟩
  intro envf i bs
  induction bs generalizing i with
  | nil => simp [processBookings]
  | cons b rest ih =>
      simp only [processBookings, List.length_append, List.length_cons]
      have h1 := one_le_scrape_len (envf i) b.1 b.2.1 b.2.2
      have h2 := ih (i + 1)
      omega

/-- C2: whenever some known error-text pattern matches a displayed element,
`check_booking_loaded` returns failure, before any success indicator or URL
check is consulted. -/
theorem claim2_error_text_forces_failure (p : PageData) (pat : String)
    (e : DisplayedElem) (hpat : pat ∈ error_selectors)
    (hfind : p.findTextContains pat = some e)
    (hdisp : e.displayed = true) :
    check_booking_loaded p = false := by
  have herr : errorVisible p = true := by
    unfold errorVisible
    rw [List.any_eq_true]
    refine ⟨pat, hpat, ?_⟩
    rw [hfind]
    exact hdisp
  unfold check_booking_loaded
  rw [herr]
  rfl

/-- C2 witness: on `errorPage` the pattern `Invalid` matches a displayed
element while a success indicator is displayed and the lowercased URL
contains `itinerary`, and the check still fails. -/
theorem claim2_witness :
    errorPage.findTextContains "Invalid" = some { text := "Invalid PNR", displayed := true } ∧
    successVisible errorPage = true ∧
    strContains (pyLower errorPage.url) "itinerary" = true ∧
    check_booking_loaded errorPage = false :=
  ⟨by decide, by decide, by decide,
   claim2_error_text_forces_failure errorPage "Invalid"
     { text := "Invalid PNR", displayed := true }
     (by decide) (by decide) (by decide)⟩

/-- C3: on a successfully loaded page with a non-empty extracted passenger
list, exactly one record per passenger is appended; each carries every
flight-level field together with that passenger's fields, and each has the
passenger count equal to the number of passengers. -/
theorem claim3_one_record_per_passenger (p : PageData) (pnr lastname bms : String)
    (hload : check_booking_loaded p = true)
    (hne : extract_passenger_details p.passengerSections ≠ []) :
    (scrape_booking_details (RequestEnv.page p) pnr lastname bms).2.length
        = (extract_passenger_details p.passengerSections).length ∧
    ∀ (i : Nat) (pa : Passenger),
      (extract_passenger_details p.passengerSections)[i]? = some pa →
      ∃ r : OutputRecord,
        (scrape_booking_details (RequestEnv.page p) pnr lastname bms).2[i]? = some r ∧
        r.bmsCode = (extract_flight_details p pnr lastname bms).bmsCode ∧
        r.pnr = (extract_flight_details p pnr lastname bms).pnr ∧
        r.lastName = (extract_flight_details p pnr lastname bms).lastName ∧
        r.source = (extract_flight_details p pnr lastname bms).source ∧
        r.destination = (extract_flight_details p pnr lastname bms).destination ∧
        r.departureDate = (extract_flight_details p pnr lastname bms).departureDate ∧
        r.flightNumber = (extract_flight_details p pnr lastname bms).flightNumber ∧
        r.departureTime = (extract_flight_details p pnr lastname bms).departureTime ∧
        r.arrivalTime = (extract_flight_details p pnr lastname bms).arrivalTime ∧
        r.stopType = (extract_flight_details p pnr lastname bms).stopType ∧
        r.cabinBaggage = (extract_flight_details p pnr lastname bms).cabinBaggage ∧
        r.checkinBaggage = (extract_flight_details p pnr lastname bms).checkinBaggage ∧
        r.name = pa.name ∧
        r.gender = pa.gender ∧
        r.ageCategory = pa.ageCategory ∧
        r.seatNumber = pa.seatNumber ∧
        r.flightStatus = pa.flightStatus ∧
        r.passengerCount = (extract_passenger_details p.passengerSections).length := by
  have hout : (scrape_booking_details (RequestEnv.page p) pnr lastname bms).2
      = (extract_passenger_details p.passengerSections).map fun pa =>
          combineRecord (extract_flight_details p pnr lastname bms) pa
            (extract_passenger_details p.passengerSections).length := by
    simp only [scrape_booking_details]
    rw [if_pos hload, if_pos hne]
  constructor
  · rw [hout]
    exact List.length_map _ _
  · intro i pa hpa
    refine ⟨combineRecord (extract_flight_details p pnr lastname bms) pa
      (extract_passenger_details p.passengerSections).length,
      ?_, rfl, rfl, rfl, rfl, rfl, rfl, rfl, rfl, rfl, rfl, rfl, rfl, rfl, rfl,
      rfl, rfl, rfl, rfl⟩
    rw [hout, List.getElem?_map, hpa]
    rfl

/-- C3 witness: on `loadedPage` (one passenger section) exactly one combined
record is produced, carrying the passenger's name, seat and the route. -/
theorem claim3_witness :
    (scrape_booking_details (RequestEnv.page loadedPage) "AB123" "DOE" "B1").2.length = 1 ∧
    ∃ r : OutputRecord,
      (scrape_booking_details (RequestEnv.page loadedPage) "AB123" "DOE" "B1").2[0]? = some r ∧
      r.name = "JOHN DOE" ∧ r.seatNumber = "16A" ∧ r.source = "DEL" ∧
      r.passengerCount = 1 := by
  have h := claim3_one_record_per_passenger loadedPage "AB123" "DOE" "B1"
    (by decide) (by decide)
  have hpa : (extract_passenger_details loadedPage.passengerSections)[0]?
      = some { name := "JOHN DOE", gender := "Male", ageCategory := "Adult",
               seatNumber := "16A", flightStatus := "Confirmed" } := by decide
  have hlen : (extract_passenger_details loadedPage.passengerSections).length = 1 := by
    decide
  obtain ⟨r, hr, _, _, _, hsrc, _, _, _, _, _, _, _, _, hname, _, _, hseat, _, hcount⟩ :=
    h.2 0 _ hpa
  exact ⟨by rw [h.1, hlen], r, hr, hname, hseat, hsrc, by rw [hcount, hlen]⟩

/-- C4: on a successfully loaded page whose passenger extraction is empty,
exactly one record is appended, with zero passenger count, placeholder
passenger fields, and the extracted flight fields preserved. -/
theorem claim4_placeholder_on_zero_passengers (p : PageData) (pnr lastname bms : String)
    (hload : check_booking_loaded p = true)
    (hemp : extract_passenger_details p.passengerSections = []) :
    ∃ r : OutputRecord,
      (scrape_booking_details (RequestEnv.page p) pnr lastname bms).2 = [r] ∧
      r.passengerCount = 0 ∧
      r.name = "No passenger details found" ∧
      r.gender = "Unknown" ∧
      r.ageCategory = "Unknown" ∧
      r.seatNumber = "Not found" ∧
      r.flightStatus = "Check manually" ∧
      r.bmsCode = (extract_flight_details p pnr lastname bms).bmsCode ∧
      r.pnr = (extract_flight_details p pnr lastname bms).pnr ∧
      r.lastName = (extract_flight_details p pnr lastname bms).lastName ∧
      r.source = (extract_flight_details p pnr lastname bms).source ∧
      r.destination = (extract_flight_details p pnr lastname bms).destination ∧
      r.departureDate = (extract_flight_details p pnr lastname bms).departureDate ∧
      r.flightNumber = (extract_flight_details p pnr lastname bms).flightNumber ∧
      r.departureTime = (extract_flight_details p pnr lastname bms).departureTime ∧
      r.arrivalTime = (extract_flight_details p pnr lastname bms).arrivalTime ∧
      r.stopType = (extract_flight_details p pnr lastname bms).stopType ∧
      r.cabinBaggage = (extract_flight_details p pnr lastname bms).cabinBaggage ∧
      r.checkinBaggage = (extract_flight_details p pnr lastname bms).checkinBaggage := by
  refine ⟨noPassengerRecord (extract_flight_details p pnr lastname bms),
    ?_, rfl, rfl, rfl, rfl, rfl, rfl, rfl, rfl, rfl, rfl, rfl, rfl, rfl, rfl,
    rfl, rfl, rfl, rfl⟩
  simp only [scrape_booking_details]
  rw [if_pos hload, if_neg (fun h => h hemp)]

/-- C4 witness: on `bareLoadedPage` (loaded, zero passenger sections)
exactly one placeholder record is produced. -/
theorem claim4_witness :
    ∃ r : OutputRecord,
      (scrape_booking_details (RequestEnv.page bareLoadedPage) "AB123" "DOE" "B1").2 = [r] ∧
      r.passengerCount = 0 ∧
      r.name = "No passenger details found" ∧
      r.gender = "Unknown" ∧
      r.ageCategory = "Unknown" ∧
      r.seatNumber = "Not found" ∧
      r.flightStatus = "Check manually" := by
  obtain ⟨r, hr, h1, h2, h3, h4, h5, h6, -⟩ :=
    claim4_placeholder_on_zero_passengers bareLoadedPage "AB123" "DOE" "B1"
      (by decide) (by decide)
  exact ⟨r, hr, h1, h2, h3, h4, h5, h6⟩

/-- C5: a route container whose spans are exactly `DEL` and `BOM` yields
source `DEL` and destination `BOM`; a route container with fewer than two
spans leaves both fields at the `Not found` sentinel. -/
theorem claim5_route_extraction :
    (∀ (p : PageData) (pnr lastname bms : String),
        p.routeSpans = some ["DEL", "BOM"] →
        (extract_flight_details p pnr lastname bms).source = "DEL" ∧
        (extract_flight_details p pnr lastname bms).destination = "BOM") ∧
    ∀ (p : PageData) (pnr lastname bms : String) (spans : List String),
      p.routeSpans = some spans → spans.length < 2 →
      (extract_flight_details p pnr lastname bms).source = "Not found" ∧
      (extract_flight_details p pnr lastname bms).destination = "Not found" := by
  constructor
  · intro p pnr lastname bms h
    constructor <;> · simp only [extract_flight_details, h]; decide
  · intro p pnr lastname bms spans h hlen
    match spans, hlen with
    | [], _ =>
        constructor <;> simp only [extract_flight_details, h]
    | [s1], _ =>
        constructor <;> simp only [extract_flight_details, h]

/-- C5 witness: the two cases at concrete pages `loadedPage` (route spans
`DEL`, `BOM`) and `shortRoutePage` (a single span). -/
theorem claim5_witness :
    ((extract_flight_details loadedPage "AB123" "DOE" "B1").source = "DEL" ∧
     (extract_flight_details loadedPage "AB123" "DOE" "B1").destination = "BOM") ∧
    (extract_flight_details shortRoutePage "AB123" "DOE" "B1").source = "Not found" ∧
    (extract_flight_details shortRoutePage "AB123" "DOE" "B1").destination = "Not found" :=
  ⟨claim5_route_extraction.1 loadedPage "AB123" "DOE" "B1" (by decide),
   claim5_route_extraction.2 shortRoutePage "AB123" "DOE" "B1" ["DEL"]
     (by decide) (by decide)⟩

/-- One step of the row loop, phrased through the specification predicate. -/
theorem collectBookings_cons (row : List (Option String))
    (rest : List (List (Option String))) :
    collectBookings (row :: rest)
      = if specRowKept row then rowBooking row :: collectBookings rest
        else collectBookings rest := rfl

/-- The row loop keeps exactly the rows satisfying `specRowKept`, in order. -/
theorem collectBookings_eq (rows : List (List (Option String))) :
    collectBookings rows = (rows.filter specRowKept).map rowBooking := by
  induction rows with
  | nil => rfl
  | cons row rest ih =>
      rw [collectBookings_cons, List.filter_cons]
      by_cases h : specRowKept row = true
      · rw [if_pos h, if_pos h, List.map_cons, ih]
      · rw [if_neg h, if_neg h, ih]

/-- C7: with at least three columns, loading succeeds and yields one booking
per row whose reference and surname are non-empty and not a missing-value
marker after trimming, in row order; the keep decision never looks at the
third column. -/
theorem claim7_row_filtering (t : InputTable) (h : 3 ≤ t.header.length) :
    ∃ bs, load_csv_data t = Except.ok bs ∧
      bs = (t.rows.filter specRowKept).map rowBooking ∧
      bs.length = (t.rows.filter specRowKept).length ∧
      ∀ (a b : Option String) (rest rest' : List (Option String)),
        specRowKept (a :: b :: rest) = specRowKept (a :: b :: rest') := by
  refine ⟨collectBookings t.rows, ?_, collectBookings_eq t.rows, ?_, ?_⟩
  · unfold load_csv_data
    rw [if_neg (by omega)]
  · rw [collectBookings_eq]
    exact List.length_map _ _
  · intro a b rest rest'
    rfl

/-- C7 witness: on `sampleTable` only the fully valid row survives, with an
empty secondary code. -/
theorem claim7_witness :
    load_csv_data sampleTable = Except.ok [("AB123", "DOE", "")] := by
  obtain ⟨bs, hok, hbs, -, -⟩ := claim7_row_filtering sampleTable (by decide)
  rw [hok, hbs]
  rfl

/-- C8: fewer than three columns makes `load_csv_data` fail with the
validation error, and the run produces no records and writes no export. -/
theorem claim8_fatal_validation (t : InputTable) (envf : Nat → RequestEnv)
    (h : t.header.length < 3) :
    load_csv_data t
      = Except.error "CSV must have at least 3 columns (PNR, Last Name, and BMS Code)" ∧
    run_scraper t envf = ([], none) := by
  have hl : load_csv_data t
      = Except.error "CSV must have at least 3 columns (PNR, Last Name, and BMS Code)" := by
    unfold load_csv_data
    rw [if_pos h]
  refine ⟨hl, ?_⟩
  unfold run_scraper
  rw [hl]

/-- C8 witness: the two-column `narrowTable`. -/
theorem claim8_witness :
    load_csv_data narrowTable
      = Except.error "CSV must have at least 3 columns (PNR, Last Name, and BMS Code)" ∧
    run_scraper narrowTable (fun _ => RequestEnv.raises "boom") = ([], none) :=
  claim8_fatal_validation narrowTable (fun _ => RequestEnv.raises "boom") (by decide)

/-- C9: a non-empty accumulator exports a table with exactly the eighteen
documented columns in the documented order, one row per record, and every
documented column missing from every record is filled with `Not found`. -/
theorem claim9_export_columns (rs : List (List (String × String))) (h : rs ≠ []) :
    ∃ t : ExportTable, export_to_csv rs = some t ∧
      t.header = ["BMS_Code", "PNR", "Last_Name", "Name", "Flight_Status", "Seat_Number",
        "Source", "Destination", "Departure_Date", "Flight_Number", "Departure_Time",
        "Arrival_Time", "Stop_Type", "Cabin_Baggage", "Checkin_Baggage",
        "Passenger_Count", "Gender", "Age_Category"] ∧
      t.rows.length = rs.length ∧
      ∀ (i : Nat) (k : String), exportColumns[i]? = some k →
        anyHasKey rs k = false →
        ∀ row ∈ t.rows, row[i]? = some (some "Not found") := by
  refine ⟨{ header := exportColumns,
            rows := rs.map fun r => exportColumns.map (cellValue rs r) }, ?_, rfl, ?_, ?_⟩
  · unfold export_to_csv
    rw [if_neg (by simpa [List.isEmpty_iff] using h)]
  · exact List.length_map _ _
  · intro i k hik hnk row hrow
    obtain ⟨r, hr, rfl⟩ := List.mem_map.mp hrow
    rw [List.getElem?_map, hik]
    show some (cellValue rs r k) = some (some "Not found")
    unfold cellValue
    rw [if_neg (by simp [hnk])]

/-- C9 witness: `sampleRows` carries only a `PNR` key, so the `BMS_Code`
column is filled with the sentinel in the export. -/
theorem claim9_witness :
    ∃ t : ExportTable, export_to_csv sampleRows = some t ∧
      t.header.length = 18 ∧
      ∀ row ∈ t.rows, row[0]? = some (some "Not found") := by
  obtain ⟨t, ht, hh, -, hfill⟩ := claim9_export_columns sampleRows (by decide)
  refine ⟨t, ht, by rw [hh]; rfl, ?_⟩
  intro row hrow
  exact hfill 0 "BMS_Code" (by decide) (by decide) row hrow

/-- C10: with an empty accumulator the exporter returns without writing
anything: no table is produced and no failure is raised. -/
theorem claim10_empty_export : export_to_csv [] = none := rfl

end IndigoScraper
